import Mathlib

/-!
Shallow embedding of the Bluetooth thermal-printer service of this repository
(class BluetoothPrinterService: connection management, ESC/POS receipt
formatting for 32-column paper, and chunked transmission to a GATT
characteristic).

Conventions of the embedding:
* JS strings are modelled as `List Char`; the UTF-16 code units of every
  literal appearing in the service are single code points, so `List Char`
  lengths agree with JS `.length`.
* JS numbers are modelled as `ℚ` (exact rational arithmetic; the source never
  relies on binary-float rounding).
* `Uint8Array` values are `List Nat`, each entry a byte value.
* The mutable fields `device`, `characteristic`, `connected` of the singleton
  service are a `PrinterState` record threaded explicitly; `async` methods
  become functions from state (plus the oracles for the host API outcomes) to
  state and result.
-/

/-- JS `String.prototype.padStart(n)` with the default space filler. -/
def padStart (s : List Char) (n : Nat) : List Char :=
  List.replicate (n - s.length) ' ' ++ s

/-- JS `String.prototype.padEnd(n)` with the default space filler. -/
def padEnd (s : List Char) (n : Nat) : List Char :=
  s ++ List.replicate (n - s.length) ' '

/-- JS `String.prototype.toUpperCase` (the service only feeds it text whose
characters upcase one-to-one). -/
def jsToUpper (s : List Char) : List Char :=
  s.map Char.toUpper

/-- JS `String.prototype.trim`. -/
def jsTrim (s : List Char) : List Char :=
  ((s.dropWhile Char.isWhitespace).reverse.dropWhile Char.isWhitespace).reverse

/-- UTF-8 encoding of a single character, as `TextEncoder.prototype.encode`
produces it byte by byte. -/
def utf8Bytes (c : Char) : List Nat :=
  let n := c.toNat
  if n < 128 then [n]
  else if n < 2048 then [192 + n / 64, 128 + n % 64]
  else if n < 65536 then [224 + n / 4096, 128 + n / 64 % 64, 128 + n % 64]
  else [240 + n / 262144, 128 + n / 4096 % 64, 128 + n / 64 % 64, 128 + n % 64]

/-- Source `textToBytes`: encode a string with `TextEncoder` (UTF-8). -/
def textToBytes (s : List Char) : List Nat :=
  s.flatMap utf8Bytes

/-- Fractional decimal digits of `rem / den` by long division, producing
digits until the expansion terminates or the fuel runs out. -/
def fracDigits : Nat → Nat → Nat → List Char
  | 0, _, _ => []
  | _ + 1, _, 0 => []
  | fuel + 1, den, rem =>
    Nat.toDigits 10 (rem * 10 / den) ++ fracDigits fuel den (rem * 10 % den)

/-- JS `Number.prototype.toString` on a nonnegative-or-negative rational:
sign, integer digits, and the terminating decimal expansion when there is
one (every JS number has a terminating expansion; 20 digits of fuel is far
beyond what the service ever interpolates). -/
def jsNumToString (q : ℚ) : List Char :=
  (if q < 0 then ['-'] else []) ++
    Nat.toDigits 10 (q.num.natAbs / q.den) ++
    (if q.num.natAbs % q.den = 0 then []
     else '.' :: fracDigits 20 q.den (q.num.natAbs % q.den))

/-- JS template-literal interpolation of a `number | undefined` value. -/
def interpNum : Option ℚ → List Char
  | none => ("undefined").toList
  | some v => jsNumToString v

/-- JS `Number.prototype.toFixed(2)` on a nonnegative rational, following the
ECMAScript algorithm: the integer closest to `100 * q`, ties rounded up, then
rendered with two fractional digits. The rounded integer is computed as
`⌊(2 * num + den) / (2 * den)⌋` over the reduced fraction `q = num / den`. -/
def toFixed2Abs (q : ℚ) : List Char :=
  let n : Nat := (2 * q.num.toNat * 100 + q.den) / (2 * q.den)
  Nat.toDigits 10 (n / 100) ++ ['.'] ++
    (if n % 100 < 10 then ['0'] else []) ++ Nat.toDigits 10 (n % 100)

/-- JS `Number.prototype.toFixed(2)`: ECMAScript emits the sign first and
rounds the absolute value. -/
def toFixed2 (q : ℚ) : List Char :=
  if q < 0 then '-' :: toFixed2Abs (-q) else toFixed2Abs q

/-- ESC control byte (source constant `ESC = 0x1b`). -/
def escByte : Nat := 0x1b

/-- GS control byte (source constant `GS = 0x1d`). -/
def gsByte : Nat := 0x1d

/-- Source `initPrinter`: ESC @. -/
def initPrinter : List Nat := [escByte, 0x40]

/-- Source `setAlignment`: ESC a n (0 = left, 1 = center, 2 = right). -/
def setAlignment (align : Nat) : List Nat := [escByte, 0x61, align]

/-- Source `setTextSize`: GS ! with the width/height multipliers packed as
`((width - 1) << 4) | (height - 1)`. -/
def setTextSize (width height : Nat) : List Nat :=
  [gsByte, 0x21, Nat.lor (Nat.shiftLeft (width - 1) 4) (height - 1)]

/-- Source `setBold`: ESC E n. -/
def setBold (bold : Bool) : List Nat := [escByte, 0x45, if bold then 1 else 0]

/-- Source `feedLines`: ESC d n. -/
def feedLines (lines : Nat) : List Nat := [escByte, 0x64, lines]

/-- Source `cutPaper`: GS V 0. -/
def cutPaper : List Nat := [gsByte, 0x56, 0x00]

/-- Source `lineFeed`: the encoded newline. -/
def lineFeed : List Nat := textToBytes ['\n']

/-- Source `separator`: 32 repeated characters plus a newline, encoded. -/
def separator (c : Char) : List Nat :=
  textToBytes (List.replicate 32 c ++ ['\n'])

/-- Source `combineArrays`: concatenate the pushed `Uint8Array` segments into
one flat buffer. -/
def combineArrays (arrays : List (List Nat)) : List Nat :=
  arrays.flatten

/-- Source `formatLine`: two-column layout. The label is cut by
`substring(0, totalWidth - right.length - 1)` (JS clamps a negative end index
to 0), then padded with `' '.repeat(Math.max(0, spaces))` before the value.
Every call site uses the default `totalWidth = 32`. -/
def formatLine (left right : List Char) (totalWidth : Nat) : List Char :=
  let leftTrimmed := left.take (Int.toNat ((totalWidth : Int) - (right.length : Int) - 1))
  let spaces : Int := (totalWidth : Int) - (leftTrimmed.length : Int) - (right.length : Int)
  leftTrimmed ++ List.replicate (Int.toNat (max 0 spaces)) ' ' ++ right

/-- Source `sendData` chunk loop: `for (let i = 0; i < data.length; i += 20)`
slicing `data.slice(i, i + 20)`; the successive chunks written to the
characteristic, in order. The chunk size 20 is the source constant. -/
def sendDataChunks (data : List Nat) : List (List Nat) :=
  match data with
  | [] => []
  | a :: t => (a :: t).take 20 :: sendDataChunks ((a :: t).drop 20)
termination_by data.length
decreasing_by simp; omega

/-- Source `sendData` under a write-fault oracle: `failAt = some j` makes the
`j`-th `writeValue` call throw. Returns the chunks successfully written (in
order) and whether the whole loop completed without a throw; `i` is the index
of the next chunk to write. -/
def writeChunksFrom (failAt : Option Nat) (i : Nat) (data : List Nat) :
    List (List Nat) × Bool :=
  match data with
  | [] => ([], true)
  | a :: t =>
    if failAt = some i then ([], false)
    else
      ((a :: t).take 20 :: (writeChunksFrom failAt (i + 1) ((a :: t).drop 20)).1,
       (writeChunksFrom failAt (i + 1) ((a :: t).drop 20)).2)
termination_by data.length
decreasing_by all_goals simp; omega

theorem sendDataChunks_length (d : List Nat) :
    (sendDataChunks d).length = (d.length + 19) / 20 := by
  induction d using sendDataChunks.induct with
  | case1 => simp [sendDataChunks]
  | case2 a t ih =>
    rw [sendDataChunks]
    simp only [List.length_cons, List.length_drop] at ih ⊢
    omega

theorem sendDataChunks_flatten (d : List Nat) :
    (sendDataChunks d).flatten = d := by
  induction d using sendDataChunks.induct with
  | case1 => simp [sendDataChunks]
  | case2 a t ih =>
    rw [sendDataChunks]
    simp only [List.flatten_cons, ih]
    exact List.take_append_drop 20 (a :: t)

theorem sendDataChunks_sizes (d : List Nat) :
    ∀ c ∈ sendDataChunks d, c.length ≤ 20 := by
  induction d using sendDataChunks.induct with
  | case1 =>
    intro c hc
    simp [sendDataChunks] at hc
  | case2 a t ih =>
    intro c hc
    rw [sendDataChunks] at hc
    rcases List.mem_cons.mp hc with hc | hc
    · subst hc
      simp [List.length_take]
    · exact ih c hc

theorem sendDataChunks_length_pos {d : List Nat} (hd : d ≠ []) :
    0 < (sendDataChunks d).length := by
  rw [sendDataChunks_length]
  have : d.length ≠ 0 := fun h => hd (List.length_eq_zero.mp h)
  omega

theorem writeChunksFrom_fail (d : List Nat) :
    ∀ i k, k < (sendDataChunks d).length →
      writeChunksFrom (some (i + k)) i d = ((sendDataChunks d).take k, false) := by
  induction d using sendDataChunks.induct with
  | case1 =>
    intro i k hk
    simp [sendDataChunks] at hk
  | case2 a t ih =>
    intro i k hk
    cases k with
    | zero =>
      rw [writeChunksFrom]
      simp
    | succ k0 =>
      rw [writeChunksFrom, sendDataChunks]
      rw [if_neg (by simp)]
      rw [sendDataChunks] at hk
      have hk0 : k0 < (sendDataChunks ((a :: t).drop 20)).length := by
        simpa using Nat.lt_of_succ_lt_succ hk
      have hidx : i + (k0 + 1) = (i + 1) + k0 := by omega
      rw [hidx, ih (i + 1) k0 hk0]
      simp [List.take_succ_cons]

theorem writeChunksFrom_fail_zero {d : List Nat} {k : Nat}
    (hk : k < (sendDataChunks d).length) :
    writeChunksFrom (some k) 0 d = ((sendDataChunks d).take k, false) := by
  have := writeChunksFrom_fail d 0 k hk
  simpa using this

/-- Discount type of an item or bill (`'fixed' | 'percentage'`). -/
inductive DiscountType where
  | fixed
  | percentage
deriving DecidableEq

/-- One entry of `billData.items` in `printBill`. Optional TS fields become
`Option`. -/
structure BillItem where
  name : List Char
  quantity : ℚ
  rate : ℚ
  total : ℚ
  discountType : Option DiscountType
  discountValue : Option ℚ
  discountAmount : Option ℚ
deriving DecidableEq

/-- The `billData` argument of `printBill`. -/
structure BillData where
  businessName : List Char
  address : Option (List Char)
  phone : Option (List Char)
  email : Option (List Char)
  gst : Option (List Char)
  billNumber : List Char
  date : List Char
  customerName : Option (List Char)
  sellerName : Option (List Char)
  paymentMode : Option (List Char)
  items : List BillItem
  subtotal : Option ℚ
  discountType : Option DiscountType
  discountValue : Option ℚ
  discountAmount : Option ℚ
  grandTotal : ℚ
  notes : Option (List Char)
  termsAndConditions : Option (List Char)
deriving DecidableEq

/-- Source `const hasDiscount = item.discountValue && item.discountValue > 0`:
an absent value and the falsy value 0 short-circuit to a falsy result, any
other value is compared with 0. -/
def hasDiscount (i : BillItem) : Bool :=
  match i.discountValue with
  | none => false
  | some v => if v = 0 then false else decide (0 < v)

/-- Source `(item.discountAmount || 0)`: `undefined` and the falsy 0 both
yield 0, so this agrees with `getD 0`. -/
def orZero : Option ℚ → ℚ
  | none => 0
  | some v => if v = 0 then 0 else v

/-- Item-line name field: `item.name.length > 12 ?
item.name.substring(0, 12) + 'â€¦' : item.name.padEnd(12)`. The marker
literal committed in the source (part_001 line 315, bytes
c3 a2 e2 82 ac c2 a6) is the three-character sequence U+00E2 U+20AC U+00A6 —
the double-encoded form of the evidently intended single U+2026 HORIZONTAL
ELLIPSIS — so the appended marker is three code units long. -/
def renderItemName (n : List Char) : List Char :=
  if 12 < n.length then n.take 12 ++ ("â€¦").toList else padEnd n 12

/-- Item-line quantity field: `item.quantity.toString().padStart(3)`. -/
def itemQtyField (i : BillItem) : List Char :=
  padStart (jsNumToString i.quantity) 3

/-- Item-line rate field: `item.rate.toFixed(2).padStart(7)`. -/
def itemRateField (i : BillItem) : List Char :=
  padStart (toFixed2 i.rate) 7

/-- Item-line amount field:
`(hasDiscount ? subtotal : item.total).toFixed(2).padStart(8)` where
`subtotal = item.quantity * item.rate`. -/
def itemAmountField (i : BillItem) : List Char :=
  padStart (toFixed2 (if hasDiscount i then i.quantity * i.rate else i.total)) 8

/-- The item line `${name}${qty}${rate}${amount}`. -/
def itemLine (i : BillItem) : List Char :=
  renderItemName i.name ++ itemQtyField i ++ itemRateField i ++ itemAmountField i

/-- Discount label of an item:
`` `Discount:${value}%` `` for a percentage discount, else
`` `Discount:Rs${value}` ``. -/
def itemDiscountLabel (i : BillItem) : List Char :=
  if i.discountType = some DiscountType.percentage then
    ("Discount:").toList ++ interpNum i.discountValue ++ ("%").toList
  else
    ("Discount:Rs").toList ++ interpNum i.discountValue

/-- The discount annotation line
`` `  ${discountLabel} -Rs${(item.discountAmount || 0).toFixed(2)}` ``. -/
def itemDiscountInfo (i : BillItem) : List Char :=
  ("  ").toList ++ itemDiscountLabel i ++ (" -Rs").toList ++
    toFixed2 (orZero i.discountAmount)

/-- The bolded after-discount line
`formatLine('  After Discount:', `Rs.${item.total.toFixed(2)}`)`. -/
def itemAfterDiscountLine (i : BillItem) : List Char :=
  formatLine (("  After Discount:").toList)
    ((("Rs.").toList) ++ toFixed2 i.total) 32

/-- The command segments pushed by one iteration of the item loop of
`printBill` (source lines 311-339): the item line and its line feed, then,
only when `hasDiscount`, the discount annotation line and the bolded
after-discount line. -/
def itemCommands (i : BillItem) : List (List Nat) :=
  [textToBytes (itemLine i), lineFeed] ++
    (if hasDiscount i then
      [textToBytes (itemDiscountInfo i), lineFeed,
       setBold true, textToBytes (itemAfterDiscountLine i), lineFeed,
       setBold false]
    else [])

/-- The whole item section: the loop over `billData.items`. -/
def itemsCommands (items : List BillItem) : List (List Nat) :=
  items.flatMap itemCommands

/-- Source `const subtotal = billData.subtotal || billData.grandTotal`: the
grand total is substituted when the subtotal is absent or the falsy value
0. -/
def subtotalShown (b : BillData) : ℚ :=
  match b.subtotal with
  | none => b.grandTotal
  | some v => if v = 0 then b.grandTotal else v

/-- The rendered subtotal line
`formatLine('Subtotal:', `Rs.${subtotal.toFixed(2)}`)`. -/
def subtotalLine (b : BillData) : List Char :=
  formatLine (("Subtotal:").toList)
    ((("Rs.").toList) ++ toFixed2 (subtotalShown b)) 32

/-- Source condition
`billData.discountValue && billData.discountValue > 0 && billData.discountAmount`. -/
def billDiscountCond (b : BillData) : Bool :=
  match b.discountValue with
  | none => false
  | some v =>
    if v = 0 then false
    else
      decide (0 < v) &&
        (match b.discountAmount with
         | none => false
         | some a => decide (a ≠ 0))

/-- Bill-level discount label: `` `Discount (${value}%):` `` for a percentage
discount, else `` `Discount (Rs.${value}):` ``. -/
def billDiscountLabel (b : BillData) : List Char :=
  if b.discountType = some DiscountType.percentage then
    ("Discount (").toList ++ interpNum b.discountValue ++ ("%):").toList
  else
    ("Discount (Rs.").toList ++ interpNum b.discountValue ++ ("):").toList

/-- An `if (field) { push(text(render(field))); push(lineFeed); }` block: a JS
string field is truthy exactly when it is present and nonempty. -/
def optionalTextLine (o : Option (List Char)) (render : List Char → List Char) :
    List (List Nat) :=
  match o with
  | none => []
  | some s => if s.isEmpty then [] else [textToBytes (render s), lineFeed]

/-- The terms-and-conditions loop: split on newlines, and for each line with
nonempty trim push the trimmed text and a line feed. -/
def termsCommands (t : List Char) : List (List Nat) :=
  (List.splitOn '\n' t).flatMap fun line =>
    if (jsTrim line).isEmpty then [] else [textToBytes (jsTrim line), lineFeed]

/-- The full `commands` array assembled by `printBill` (source lines 242-401),
in push order. -/
def printBillCommands (b : BillData) : List (List Nat) :=
  initPrinter ::
  ([setAlignment 1, setBold true, setTextSize 2 2,
    textToBytes (jsToUpper b.businessName), lineFeed,
    setTextSize 1 1, setBold false]
  ++ optionalTextLine b.address (fun s => s)
  ++ optionalTextLine b.phone (fun s => ("Ph: ").toList ++ s)
  ++ optionalTextLine b.email (fun s => s)
  ++ optionalTextLine b.gst (fun s => ("GST: ").toList ++ s)
  ++ [separator '=',
      setAlignment 0,
      textToBytes (formatLine (("Bill No:").toList) b.billNumber 32), lineFeed,
      textToBytes (formatLine (("Date:").toList) b.date 32), lineFeed]
  ++ optionalTextLine b.customerName (fun s => formatLine (("Customer:").toList) s 32)
  ++ optionalTextLine b.sellerName (fun s => formatLine (("Seller:").toList) s 32)
  ++ optionalTextLine b.paymentMode (fun s => formatLine (("Payment:").toList) s 32)
  ++ [separator '-',
      setBold true,
      textToBytes (("Item          Qty   Rate  Amount").toList), lineFeed,
      separator '-',
      setBold false]
  ++ itemsCommands b.items
  ++ [separator '-',
      textToBytes (subtotalLine b), lineFeed]
  ++ (if billDiscountCond b then
        [textToBytes (formatLine (billDiscountLabel b)
           ((("- Rs.").toList) ++ toFixed2 (orZero b.discountAmount)) 32),
         lineFeed]
      else [])
  ++ [separator '=',
      setBold true, setTextSize 2 2, setAlignment 2,
      textToBytes ((("Total: Rs.").toList) ++ toFixed2 b.grandTotal), lineFeed,
      setTextSize 1 1, setBold false, setAlignment 0]
  ++ (match b.notes with
      | none => []
      | some s =>
        if s.isEmpty then []
        else [separator '-', textToBytes ((("Note: ").toList) ++ s), lineFeed])
  ++ (match b.termsAndConditions with
      | none => []
      | some t =>
        if t.isEmpty then []
        else [separator '-', setAlignment 1] ++ termsCommands t)
  ++ [separator '=',
      setAlignment 1,
      textToBytes (("Thank you for your business!").toList), lineFeed, lineFeed,
      feedLines 3,
      cutPaper])

/-- The fixed `commands` array assembled by `testPrint` (source lines
422-436). -/
def testPrintCommands : List (List Nat) :=
  [initPrinter,
   setAlignment 1, setBold true, setTextSize 2 2,
   textToBytes (("TEST PRINT").toList), lineFeed,
   setTextSize 1 1, setBold false,
   separator '-',
   textToBytes (("Printer is working correctly!").toList), lineFeed,
   feedLines 3,
   cutPaper]

/-- The mutable fields of the singleton service. `hasDevice` and
`hasCharacteristic` record whether `device` and `characteristic` are non-null;
`disconnectListener` records whether a `gattserverdisconnected` listener that
clears `connected` and `characteristic` has been registered on the current
device (source line 57, executed only on the primary connect path). -/
structure PrinterState where
  hasDevice : Bool
  hasCharacteristic : Bool
  connected : Bool
  disconnectListener : Bool
deriving DecidableEq

/-- Fields of a freshly constructed service: all nulls, `connected = false`. -/
def initialState : PrinterState :=
  { hasDevice := false, hasCharacteristic := false, connected := false,
    disconnectListener := false }

/-- Source `isConnected`: `this.connected && this.characteristic !== null`. -/
def isConnected (s : PrinterState) : Bool :=
  s.connected && s.hasCharacteristic

/-- The peripheral fires `gattserverdisconnected`. If the clearing listener
was registered (primary connect path, source lines 57-60) it sets
`connected = false` and nulls the characteristic; otherwise no code of the
service runs and the fields keep their values. -/
def gattDisconnectedEvent (s : PrinterState) : PrinterState :=
  if s.disconnectListener then
    { s with connected := false, hasCharacteristic := false }
  else s

/-- The errors the service throws. -/
inductive PrinterErr where
  | notSupported
  | connectFailed
  | notConnected
  | printFailed
  | writeFailed
deriving DecidableEq

/-- Outcome oracle for the host Bluetooth API during `connect()`: the primary
filtered discovery succeeds through the characteristic lookup, or it fails and
the unfiltered fallback discovery finds a writable characteristic, or both
strategies fail. -/
inductive ConnectPath where
  | primary
  | fallback
  | failure
deriving DecidableEq

/-- Source `connect()` (lines 24-101). `supported` is the value of
`isSupported()`, a capability flag of the host environment. The primary path
stores device and characteristic, sets `connected`, and registers the
`gattserverdisconnected` listener (line 57). The fallback path (lines 67-93)
stores a device and the first writable characteristic and sets `connected`,
but registers no disconnect listener. -/
def connectRun (supported : Bool) (path : ConnectPath) (s : PrinterState) :
    Except PrinterErr PrinterState :=
  if supported = false then Except.error PrinterErr.notSupported
  else
    match path with
    | ConnectPath.primary =>
      Except.ok { hasDevice := true, hasCharacteristic := true,
                  connected := true, disconnectListener := true }
    | ConnectPath.fallback =>
      Except.ok { s with
        hasDevice := true
        hasCharacteristic := true
        connected := true }
    | ConnectPath.failure => Except.error PrinterErr.connectFailed

/-- Source `disconnect()` (lines 104-111): unconditionally clears `connected`,
`characteristic` and `device`, and never throws. It performs no `isSupported`
check. The listener registered on a dropped device object is not removed, but
the device reference itself is nulled. -/
def disconnectRun (s : PrinterState) : Except PrinterErr PrinterState :=
  Except.ok { s with
    connected := false
    hasCharacteristic := false
    hasDevice := false }

/-- Source `printBill` (lines 210-414): throws `notConnected` before any
command is assembled when `isConnected()` is false; otherwise assembles the
command buffer, concatenates it, and sends it in chunks. Any error thrown
inside the `try` block is caught and rethrown as the single `printFailed`
error. No instance field is assigned anywhere in the method, so the state
passes through unchanged on every path. The triple returned is (final state,
chunks written to the characteristic in order, result). -/
def printBillRun (s : PrinterState) (b : BillData) (failAt : Option Nat) :
    PrinterState × List (List Nat) × Except PrinterErr Unit :=
  if isConnected s = false then (s, [], Except.error PrinterErr.notConnected)
  else
    match writeChunksFrom failAt 0 (combineArrays (printBillCommands b)) with
    | (written, true) => (s, written, Except.ok ())
    | (written, false) => (s, written, Except.error PrinterErr.printFailed)

/-- Source `testPrint` (lines 417-440): throws `notConnected` when
`isConnected()` is false; otherwise sends the fixed test buffer. It has no
`try`/`catch`, so a write failure propagates as the raw write error. -/
def testPrintRun (s : PrinterState) (failAt : Option Nat) :
    PrinterState × List (List Nat) × Except PrinterErr Unit :=
  if isConnected s = false then (s, [], Except.error PrinterErr.notConnected)
  else
    match writeChunksFrom failAt 0 (combineArrays testPrintCommands) with
    | (written, true) => (s, written, Except.ok ())
    | (written, false) => (s, written, Except.error PrinterErr.writeFailed)

theorem hasDiscount_of_pos {i : BillItem} {v : ℚ}
    (h : i.discountValue = some v) (hv : 0 < v) : hasDiscount i = true := by
  simp only [hasDiscount, h]
  rw [if_neg hv.ne']
  exact decide_eq_true hv

theorem hasDiscount_of_none_or_zero {i : BillItem}
    (h : i.discountValue = none ∨ i.discountValue = some 0) :
    hasDiscount i = false := by
  rcases h with h | h <;> simp [hasDiscount, h]

theorem hasDiscount_of_nonpos {i : BillItem} {w : ℚ}
    (h : i.discountValue = some w) (hw : w ≤ 0) : hasDiscount i = false := by
  simp only [hasDiscount, h]
  by_cases h0 : w = 0
  · simp [h0]
  · rw [if_neg h0]
    exact decide_eq_false (not_lt.mpr hw)

theorem itemCommands_with_discount {i : BillItem} (h : hasDiscount i = true) :
    itemCommands i =
      [textToBytes (itemLine i), lineFeed,
       textToBytes (itemDiscountInfo i), lineFeed,
       setBold true, textToBytes (itemAfterDiscountLine i), lineFeed,
       setBold false] := by
  simp [itemCommands, h]

theorem itemCommands_without_discount {i : BillItem} (h : hasDiscount i = false) :
    itemCommands i = [textToBytes (itemLine i), lineFeed] := by
  simp [itemCommands, h]

theorem itemsCommands_no_discount {items : List BillItem}
    (h : ∀ j ∈ items, j.discountValue = none ∨ j.discountValue = some 0) :
    itemsCommands items =
      items.flatMap (fun j => [textToBytes (itemLine j), lineFeed]) := by
  induction items with
  | nil => rfl
  | cons a t ih =>
    simp only [itemsCommands, List.flatMap_cons] at ih ⊢
    rw [itemCommands_without_discount (hasDiscount_of_none_or_zero (h a (by simp)))]
    rw [ih fun j hj => h j (by simp [hj])]

theorem flatMap_pair_length (items : List BillItem)
    (f g : BillItem → List Nat) :
    (items.flatMap (fun j => [f j, g j])).length = 2 * items.length := by
  induction items with
  | nil => rfl
  | cons a t ih =>
    simp only [List.flatMap_cons, List.length_append, List.length_cons,
      List.length_nil, ih]
    omega

theorem itemAmountField_with_discount {i : BillItem} (h : hasDiscount i = true) :
    itemAmountField i = padStart (toFixed2 (i.quantity * i.rate)) 8 := by
  simp [itemAmountField, h]

theorem itemAmountField_without_discount {i : BillItem} (h : hasDiscount i = false) :
    itemAmountField i = padStart (toFixed2 i.total) 8 := by
  simp [itemAmountField, h]

theorem printBill_buffer_ne_nil (b : BillData) :
    combineArrays (printBillCommands b) ≠ [] := by
  unfold printBillCommands combineArrays
  simp [initPrinter]

/-- A line item without a discount, used to instantiate theorems. -/
def plainItem : BillItem :=
  { name := ("Widget").toList, quantity := 2, rate := 50, total := 100,
    discountType := none, discountValue := none, discountAmount := none }

/-- A line item with a positive fixed discount, used to instantiate
theorems. -/
def discountedItem : BillItem :=
  { name := ("Widget").toList, quantity := 2, rate := 50, total := 95,
    discountType := some DiscountType.fixed, discountValue := some 5,
    discountAmount := some 5 }

/-- A line item carrying the falsy discount value 0. -/
def zeroDiscountItem : BillItem :=
  { name := ("Widget").toList, quantity := 2, rate := 50, total := 100,
    discountType := some DiscountType.fixed, discountValue := some 0,
    discountAmount := some 0 }

/-- A minimal bill, used to instantiate theorems. -/
def sampleBill : BillData :=
  { businessName := ("Test Shop").toList, address := none, phone := none,
    email := none, gst := none, billNumber := ("BILL-2025-0001").toList,
    date := ("2025-01-01").toList, customerName := none, sellerName := none,
    paymentMode := none, items := [plainItem], subtotal := none,
    discountType := none, discountValue := none, discountAmount := none,
    grandTotal := 100, notes := none, termsAndConditions := none }

/-- The sample bill with an explicitly supplied subtotal of 0. -/
def subtotalZeroBill : BillData := { sampleBill with subtotal := some 0 }

/-- The sample bill with a nonzero supplied subtotal. -/
def subtotalPosBill : BillData := { sampleBill with subtotal := some 80 }

/-- The service state after a successful primary-path connect. -/
def primaryConnectedState : PrinterState :=
  { hasDevice := true, hasCharacteristic := true, connected := true,
    disconnectListener := true }

/-- The service state after a successful fallback-path connect from a fresh
service: the disconnect listener was never registered. -/
def fallbackConnectedState : PrinterState :=
  { hasDevice := true, hasCharacteristic := true, connected := true,
    disconnectListener := false }

/-- Claim C1: for every byte buffer of length L handed to `sendData`, the
loop issues exactly ⌈L / 20⌉ sequential writes (in `Nat` arithmetic,
`(L + 19) / 20`), every written chunk has length at most 20, and the chunks
concatenate in order back to the original buffer. -/
theorem sendData_chunking (data : List Nat) :
    (sendDataChunks data).length = (data.length + 19) / 20 ∧
    (∀ c ∈ sendDataChunks data, c.length ≤ 20) ∧
    (sendDataChunks data).flatten = data :=
  ⟨sendDataChunks_length data, sendDataChunks_sizes data,
   sendDataChunks_flatten data⟩

/-- Witness for C1 at a concrete 45-byte buffer (3 chunks). -/
theorem sendData_chunking_applied :
    (sendDataChunks (List.range 45)).length = ((List.range 45).length + 19) / 20 ∧
    (∀ c ∈ sendDataChunks (List.range 45), c.length ≤ 20) ∧
    (sendDataChunks (List.range 45)).flatten = List.range 45 :=
  sendData_chunking (List.range 45)

/-- Claim C3 (code bug, evaluated at the failing input): the marker literal
committed in the source is the three-character mojibake sequence of bytes
c3 a2 e2 82 ac c2 a6 — a double-encoded U+2026 — not the evidently intended
single-character ellipsis, so a 20-character name renders as its first 12
characters followed by three marker characters: a 15-code-unit field,
exceeding the 13 that the claim (and the intended single marker) would give.
A name of exactly 12 characters is still rendered unchanged. -/
theorem itemName_truncation_bug :
    renderItemName (("abcdefghijklmnopqrst").toList) =
      (("abcdefghijklmnopqrst").toList).take 12 ++ ("â€¦").toList ∧
    (renderItemName (("abcdefghijklmnopqrst").toList)).length = 15 ∧
    ¬ (renderItemName (("abcdefghijklmnopqrst").toList)).length ≤ 13 ∧
    renderItemName (("abcdefghijkl").toList) = ("abcdefghijkl").toList := by
  decide

/-- Counterexample to claim C4 as stated: for the label "A" and a value of 33
characters, `formatLine` emits a 33-character line, exceeding 32. -/
theorem formatLine_width_counterexample :
    ¬ (formatLine (("A").toList) (List.replicate 33 'x') 32).length ≤ 32 := by
  decide

/-- Claim C4 (amended): whenever the value is at most 32 characters the
formatted line is at most 32 characters (a value longer than 32 characters is
emitted unshortened and overflows); and whenever the label is short enough
not to be truncated (label length ≤ 32 − value length − 1) the line is the
label, pad spaces, and the value, exactly 32 characters, so the value's final
character lands at column 32. -/
theorem formatLine_width (left right : List Char) :
    (right.length ≤ 32 → (formatLine left right 32).length ≤ 32) ∧
    (left.length + right.length + 1 ≤ 32 →
      formatLine left right 32 =
        left ++ List.replicate (32 - left.length - right.length) ' ' ++ right ∧
      (formatLine left right 32).length = 32) := by
  constructor
  · intro h
    simp only [formatLine, List.length_append, List.length_take,
      List.length_replicate]
    omega
  · intro h
    have ht : left.take (Int.toNat (((32 : Nat) : Int) - (right.length : Int) - 1)) = left :=
      List.take_of_length_le (by omega)
    have hs : Int.toNat (max 0 (((32 : Nat) : Int) - (left.length : Int) - (right.length : Int))) =
        32 - left.length - right.length := by omega
    constructor
    · simp only [formatLine, ht, hs]
    · simp only [formatLine, ht, hs, List.length_append, List.length_replicate]
      omega

/-- Witness for C4 (amended) at the label "Subtotal:" and value "Rs.100.00"
(9 + 9 + 1 ≤ 32). -/
theorem formatLine_width_applied :
    (formatLine (("Subtotal:").toList) (("Rs.100.00").toList) 32).length ≤ 32 ∧
    formatLine (("Subtotal:").toList) (("Rs.100.00").toList) 32 =
      ("Subtotal:").toList ++ List.replicate 14 ' ' ++ ("Rs.100.00").toList :=
  ⟨(formatLine_width (("Subtotal:").toList) (("Rs.100.00").toList)).1 (by decide),
   ((formatLine_width (("Subtotal:").toList) (("Rs.100.00").toList)).2 (by decide)).1⟩

/-- Counterexample to claim C5 as stated: a connection established through
the unfiltered fallback discovery (source lines 67-93) registers no
`gattserverdisconnected` listener, so after the peripheral's disconnect event
fires, `isConnected()` still returns true. -/
theorem disconnect_event_fallback_counterexample :
    connectRun true ConnectPath.fallback initialState =
      Except.ok fallbackConnectedState ∧
    isConnected fallbackConnectedState = true ∧
    isConnected (gattDisconnectedEvent fallbackConnectedState) = true := by
  refine ⟨rfl, rfl, rfl⟩

/-- Claim C5 (amended): after a connection established via the filtered
primary discovery — which registers the disconnect listener — the
asynchronous disconnect event makes every subsequent `isConnected()` call
return false without any explicit `disconnect()` call; after a connection
established via the unfiltered fallback discovery from a fresh service, no
listener is registered and `isConnected()` still returns true after the
event. -/
theorem disconnect_event_clears_connection (supported : Bool)
    (s sc : PrinterState) :
    (connectRun supported ConnectPath.primary s = Except.ok sc →
      isConnected sc = true ∧
      isConnected (gattDisconnectedEvent sc) = false) ∧
    (s.disconnectListener = false →
      connectRun supported ConnectPath.fallback s = Except.ok sc →
      isConnected sc = true ∧
      isConnected (gattDisconnectedEvent sc) = true) := by
  constructor
  · intro h
    cases supported with
    | false => simp [connectRun] at h
    | true =>
      simp only [connectRun, if_neg (by decide : ¬ (true = false)),
        Except.ok.injEq] at h
      subst h
      exact ⟨rfl, rfl⟩
  · intro hl h
    cases supported with
    | false => simp [connectRun] at h
    | true =>
      simp only [connectRun, if_neg (by decide : ¬ (true = false)),
        Except.ok.injEq] at h
      subst h
      refine ⟨rfl, ?_⟩
      simp [gattDisconnectedEvent, isConnected, hl]

/-- Witness for C5 (amended): the primary-path state from a fresh service
loses `isConnected` at the event, the fallback-path state keeps it. -/
theorem disconnect_event_clears_connection_applied :
    (isConnected primaryConnectedState = true ∧
     isConnected (gattDisconnectedEvent primaryConnectedState) = false) ∧
    (isConnected fallbackConnectedState = true ∧
     isConnected (gattDisconnectedEvent fallbackConnectedState) = true) :=
  ⟨(disconnect_event_clears_connection true initialState primaryConnectedState).1 rfl,
   (disconnect_event_clears_connection true initialState fallbackConnectedState).2
     rfl rfl⟩

/-- Claim C6: whenever `isConnected()` is false, `printBill` and `testPrint`
throw the not-connected error before assembling any command bytes and issue
no write to the characteristic (their write logs are empty and the state is
untouched). -/
theorem print_ops_require_connection (s : PrinterState) (b : BillData)
    (failAt : Option Nat) (h : isConnected s = false) :
    printBillRun s b failAt = (s, [], Except.error PrinterErr.notConnected) ∧
    testPrintRun s failAt = (s, [], Except.error PrinterErr.notConnected) := by
  constructor
  · simp [printBillRun, h]
  · simp [testPrintRun, h]

/-- Witness for C6 at the fresh disconnected state. -/
theorem print_ops_require_connection_applied :
    printBillRun initialState sampleBill none =
      (initialState, [], Except.error PrinterErr.notConnected) ∧
    testPrintRun initialState none =
      (initialState, [], Except.error PrinterErr.notConnected) :=
  print_ops_require_connection initialState sampleBill none rfl

/-- Counterexample to claim C7 as stated: in an environment whose
`isSupported()` is false, `connect()` does fail with the not-supported error,
but `disconnect()` succeeds as a no-op instead of failing (it never consults
`isSupported`, source lines 104-111), and `printBill` fails with the
not-connected error, which is not the not-supported error (source lines
238-240 check only `isConnected()`). -/
theorem unsupported_ops_counterexample :
    connectRun false ConnectPath.primary initialState =
      Except.error PrinterErr.notSupported ∧
    disconnectRun initialState = Except.ok initialState ∧
    printBillRun initialState sampleBill none =
      (initialState, [], Except.error PrinterErr.notConnected) ∧
    PrinterErr.notConnected ≠ PrinterErr.notSupported := by
  refine ⟨rfl, rfl, rfl, by decide⟩

/-- Claim C7 (amended): if `isSupported()` is false, `connect()` fails fast
with the not-supported error on every path and performs no device
interaction; `disconnect()` does not consult `isSupported` and no-ops
successfully; `printBill` and `testPrint` do not consult `isSupported` either
and, in any state that is not connected — which is every state reachable in
an unsupported environment, since only a successful `connect()` sets the
connected fields — they fail with the not-connected error without any device
interaction. -/
theorem unsupported_environment_behavior (path : ConnectPath)
    (s : PrinterState) (b : BillData) (failAt : Option Nat) :
    connectRun false path s = Except.error PrinterErr.notSupported ∧
    disconnectRun s = Except.ok { s with
      connected := false
      hasCharacteristic := false
      hasDevice := false } ∧
    (isConnected s = false →
      printBillRun s b failAt = (s, [], Except.error PrinterErr.notConnected) ∧
      testPrintRun s failAt = (s, [], Except.error PrinterErr.notConnected)) := by
  refine ⟨rfl, rfl, fun h => ⟨?_, ?_⟩⟩
  · simp [printBillRun, h]
  · simp [testPrintRun, h]

/-- Witness for C7 (amended) at the fresh service state. -/
theorem unsupported_environment_behavior_applied :
    connectRun false ConnectPath.primary initialState =
      Except.error PrinterErr.notSupported ∧
    disconnectRun initialState = Except.ok { initialState with
      connected := false
      hasCharacteristic := false
      hasDevice := false } ∧
    (printBillRun initialState sampleBill none =
      (initialState, [], Except.error PrinterErr.notConnected) ∧
     testPrintRun initialState none =
      (initialState, [], Except.error PrinterErr.notConnected)) := by
  have h := unsupported_environment_behavior ConnectPath.primary initialState
    sampleBill none
  exact ⟨h.1, h.2.1, h.2.2 rfl⟩

/-- Claim C8: when `printBill` is invoked in a connected state and the write
of chunk `k` throws, the call returns the single print-failed error, the
chunks written before the failure are exactly the first `k`, and the
connection state fields are returned unchanged — in particular the service is
still connected, so a transport error does not force a disconnect. -/
theorem printBill_transport_failure (s : PrinterState) (b : BillData)
    (k : Nat) (hc : isConnected s = true)
    (hk : k < (sendDataChunks (combineArrays (printBillCommands b))).length) :
    printBillRun s b (some k) =
      (s, (sendDataChunks (combineArrays (printBillCommands b))).take k,
       Except.error PrinterErr.printFailed) ∧
    isConnected (printBillRun s b (some k)).1 = true := by
  have hrun : printBillRun s b (some k) =
      (s, (sendDataChunks (combineArrays (printBillCommands b))).take k,
       Except.error PrinterErr.printFailed) := by
    simp [printBillRun, hc, writeChunksFrom_fail_zero hk]
  exact ⟨hrun, by rw [hrun]; exact hc⟩

/-- Witness for C8: the first chunk write of the sample bill throws on a
primary-connected service. -/
theorem printBill_transport_failure_applied :
    printBillRun primaryConnectedState sampleBill (some 0) =
      (primaryConnectedState,
       (sendDataChunks (combineArrays (printBillCommands sampleBill))).take 0,
       Except.error PrinterErr.printFailed) ∧
    isConnected (printBillRun primaryConnectedState sampleBill (some 0)).1 = true :=
  printBill_transport_failure primaryConnectedState sampleBill 0 rfl
    (sendDataChunks_length_pos (printBill_buffer_ne_nil sampleBill))

/-- Claim C2: an item with a positive discount value gets exactly two extra
lines immediately after its item line — the discount annotation and the
bolded after-discount total; an item whose discount value is zero or absent
gets no extra lines, identical to the no-discount rendering; hence an item
list with no discounts contributes exactly one line (plus its line feed) per
item and zero discount-annotation lines. -/
theorem printBill_discount_line_emission (i : BillItem) (v : ℚ)
    (items : List BillItem) :
    (i.discountValue = some v → 0 < v →
      itemCommands i =
        [textToBytes (itemLine i), lineFeed,
         textToBytes (itemDiscountInfo i), lineFeed,
         setBold true, textToBytes (itemAfterDiscountLine i), lineFeed,
         setBold false]) ∧
    (i.discountValue = none ∨ i.discountValue = some 0 →
      itemCommands i = [textToBytes (itemLine i), lineFeed]) ∧
    ((∀ j ∈ items, j.discountValue = none ∨ j.discountValue = some 0) →
      itemsCommands items =
        items.flatMap (fun j => [textToBytes (itemLine j), lineFeed]) ∧
      (itemsCommands items).length = 2 * items.length) := by
  refine ⟨fun h hv => itemCommands_with_discount (hasDiscount_of_pos h hv),
    fun h => itemCommands_without_discount (hasDiscount_of_none_or_zero h),
    fun h => ?_⟩
  have he := itemsCommands_no_discount h
  exact ⟨he, by rw [he, flatMap_pair_length]⟩

/-- Witness for C2 at a discounted item, a zero-discount item, and a
two-item discount-free list. -/
theorem printBill_discount_line_emission_applied :
    itemCommands discountedItem =
      [textToBytes (itemLine discountedItem), lineFeed,
       textToBytes (itemDiscountInfo discountedItem), lineFeed,
       setBold true, textToBytes (itemAfterDiscountLine discountedItem),
       lineFeed, setBold false] ∧
    itemCommands zeroDiscountItem =
      [textToBytes (itemLine zeroDiscountItem), lineFeed] ∧
    itemsCommands [plainItem, zeroDiscountItem] =
      ([plainItem, zeroDiscountItem]).flatMap
        (fun j => [textToBytes (itemLine j), lineFeed]) ∧
    (itemsCommands [plainItem, zeroDiscountItem]).length =
      2 * ([plainItem, zeroDiscountItem] : List BillItem).length :=
  ⟨(printBill_discount_line_emission discountedItem 5 []).1 rfl (by decide),
   (printBill_discount_line_emission zeroDiscountItem 0 []).2.1 (Or.inr rfl),
   ((printBill_discount_line_emission plainItem 0
       [plainItem, zeroDiscountItem]).2.2 (by decide)).1,
   ((printBill_discount_line_emission plainItem 0
       [plainItem, zeroDiscountItem]).2.2 (by decide)).2⟩

/-- Claim C9: when the subtotal field is absent or equal to 0 — the falsy
cases of `billData.subtotal || billData.grandTotal` — the rendered Subtotal
line shows the grand total; a nonzero supplied subtotal is shown as
supplied. -/
theorem subtotal_zero_fallback (b : BillData) :
    (b.subtotal = none ∨ b.subtotal = some 0 →
      subtotalShown b = b.grandTotal ∧
      subtotalLine b =
        formatLine (("Subtotal:").toList)
          ((("Rs.").toList) ++ toFixed2 b.grandTotal) 32) ∧
    (∀ v : ℚ, b.subtotal = some v → v ≠ 0 → subtotalShown b = v) := by
  constructor
  · intro h
    have hs : subtotalShown b = b.grandTotal := by
      rcases h with h | h <;> simp [subtotalShown, h]
    refine ⟨hs, ?_⟩
    simp only [subtotalLine, hs]
  · intro v hv hnz
    simp [subtotalShown, hv, hnz]

/-- Witness for C9 at a bill with supplied subtotal 0 and a bill with
supplied subtotal 80. -/
theorem subtotal_zero_fallback_applied :
    (subtotalShown subtotalZeroBill = subtotalZeroBill.grandTotal ∧
     subtotalLine subtotalZeroBill =
       formatLine (("Subtotal:").toList)
         ((("Rs.").toList) ++ toFixed2 subtotalZeroBill.grandTotal) 32) ∧
    subtotalShown subtotalPosBill = 80 :=
  ⟨(subtotal_zero_fallback subtotalZeroBill).1 (Or.inr rfl),
   (subtotal_zero_fallback subtotalPosBill).2 80 rfl (by decide)⟩

/-- Claim C10: for an item with a positive discount value, the amount column
of its main line is `quantity * rate` formatted to 2 decimals (right-padded
to width 8), not the stored item total, and the stored total appears on the
separate after-discount line; an item without a (positive) discount shows the
stored total in the amount column. -/
theorem item_amount_column (i : BillItem) (v : ℚ) :
    (i.discountValue = some v → 0 < v →
      itemAmountField i = padStart (toFixed2 (i.quantity * i.rate)) 8 ∧
      itemLine i =
        renderItemName i.name ++ itemQtyField i ++ itemRateField i ++
          padStart (toFixed2 (i.quantity * i.rate)) 8 ∧
      itemAfterDiscountLine i =
        formatLine (("  After Discount:").toList)
          ((("Rs.").toList) ++ toFixed2 i.total) 32) ∧
    (i.discountValue = none ∨ (∃ w : ℚ, i.discountValue = some w ∧ w ≤ 0) →
      itemAmountField i = padStart (toFixed2 i.total) 8) := by
  constructor
  · intro h hv
    have hd := hasDiscount_of_pos h hv
    refine ⟨itemAmountField_with_discount hd, ?_, rfl⟩
    simp only [itemLine, itemAmountField_with_discount hd]
  · intro h
    rcases h with h | ⟨w, hw, hle⟩
    · exact itemAmountField_without_discount (hasDiscount_of_none_or_zero (Or.inl h))
    · exact itemAmountField_without_discount (hasDiscount_of_nonpos hw hle)

/-- Witness for C10 at the discounted and the plain sample items. -/
theorem item_amount_column_applied :
    itemAmountField discountedItem =
      padStart (toFixed2 (discountedItem.quantity * discountedItem.rate)) 8 ∧
    itemAmountField plainItem = padStart (toFixed2 plainItem.total) 8 :=
  ⟨((item_amount_column discountedItem 5).1 rfl (by decide)).1,
   (item_amount_column plainItem 0).2 (Or.inl rfl)⟩
